import Mathlib

set_option autoImplicit false

namespace IntellMade

/- ### Ledger store shared by the Supabase edge functions

The edge functions (`deduct-credits`, `payments-verify`, `stripe-webhook`,
`get-credits`) and the client `AuthContext` variants all work over two tables:
`user_credits` (email → integer `credits`) and `credit_transactions`
(append-only rows with `email`, `amount`, `type`, optional `stripe_session_id`,
`description`).  We model them as association/append lists. -/

/-- One row of the `credit_transactions` table. -/
structure Txn where
  email : String
  amount : Int
  type : String
  stripe_session_id : Option String
  description : String
deriving DecidableEq

/-- The store the edge functions read and write: the `user_credits` table
(one row per email) and the append-only `credit_transactions` table. -/
structure EDB where
  user_credits : List (String × Int)
  credit_transactions : List Txn
deriving DecidableEq

/-- `select ... where key = k single()` over a keyed table. -/
def lookupRow {α : Type} : List (String × α) → String → Option α
  | [], _ => none
  | r :: rs, e => if r.1 == e then some r.2 else lookupRow rs e

/-- `upsert ... onConflict key`: replace the matching row, or append a fresh
one. -/
def upsertRow {α : Type} : List (String × α) → String → α → List (String × α)
  | [], em, n => [(em, n)]
  | r :: rs, em, n => if r.1 == em then (em, n) :: rs else r :: upsertRow rs em n

/-- `update ... eq key`: update the matching row, insert nothing. -/
def updateRow {α : Type} : List (String × α) → String → α → List (String × α)
  | [], _, _ => []
  | r :: rs, uid, p => if r.1 == uid then (uid, p) :: rs else r :: updateRow rs uid p

def lookupCredits (db : EDB) (email : String) : Option Int :=
  lookupRow db.user_credits email

def upsertCredits (db : EDB) (email : String) (n : Int) : EDB :=
  { db with user_credits := upsertRow db.user_credits email n }

/-- `insert into credit_transactions` (append-only). -/
def insertTxn (db : EDB) (t : Txn) : EDB :=
  { db with credit_transactions := db.credit_transactions ++ [t] }

/-- The duplicate check both payment handlers run:
`select id from credit_transactions where stripe_session_id = sid single()`. -/
def sessionCredited (db : EDB) (sid : String) : Bool :=
  db.credit_transactions.any (fun t => t.stripe_session_id == some sid)

/-- How many ledger rows carry a given `stripe_session_id` (the idempotency
key of the claims). -/
def countSessionTxns (db : EDB) (sid : String) : Nat :=
  (db.credit_transactions.filter (fun t => t.stripe_session_id == some sid)).length

/- ### `deduct-credits` edge function
(src/backend/supabase/functions/deduct-credits/index.ts)

The handler performs, in order and each as its own awaited round trip:
read the row (`currentCredits?.credits || 0`), guard `current < amount`,
upsert `current - amount`, insert a `usage` transaction.  We keep the phases
as named functions so interleavings of the round trips can be expressed, and
define the handler as their literal composition. -/

/-- The response body of `deduct-credits`: `credits` is only present in the
success body, `error` only in the failure body. -/
structure DeductResp where
  success : Bool
  credits : Option Int
  error : Option String
deriving DecidableEq

/-- The balance the handler observes: `currentCredits?.credits || 0`. -/
def dcRead (db : EDB) (email : String) : Int :=
  (lookupCredits db email).getD 0

/-- The `usage` row the handler appends; `description || 'Credit deduction'`. -/
def usageEntry (email : String) (amount : Int) (description : String) : Txn :=
  { email := email, amount := -amount, type := "usage", stripe_session_id := none,
    description := if description = "" then "Credit deduction" else description }

/-- First write round trip: `upsert \x7b email, credits: newTotal \x7d`. -/
def dcUpsert (db : EDB) (email : String) (newTotal : Int) : EDB :=
  upsertCredits db email newTotal

/-- Second write round trip: `insert into credit_transactions`. -/
def dcInsert (db : EDB) (email : String) (amount : Int) (description : String) : EDB :=
  insertTxn db (usageEntry email amount description)

/-- The whole write phase of one `deduct-credits` call, parameterised by the
balance `current` that its earlier read observed. -/
def dcWrite (db : EDB) (email : String) (amount current : Int) (description : String) : EDB :=
  dcInsert (dcUpsert db email (current - amount)) email amount description

/-- The `deduct-credits` handler, sequential semantics. -/
def deductCredits (db : EDB) (email : String) (amount : Int) (description : String) :
    DeductResp × EDB :=
  let current := dcRead db email
  if current < amount then
    (⟨false, none, some "Insufficient credits"⟩, db)
  else
    (⟨true, some (current - amount), none⟩, dcWrite db email amount current description)

/-- One interleaved execution of two concurrent `deduct-credits` calls for the
same email: both balance reads resolve against the initial store, then the two
write phases run in order (first call's upsert+insert, then second call's).
Each call's guard and response use the balance its own read observed, exactly
as in the handler body. -/
def deductRace (db : EDB) (email : String) (a1 a2 : Int) (d : String) :
    (DeductResp × DeductResp) × EDB :=
  let c1 := dcRead db email
  let c2 := dcRead db email
  let s1 := if c1 < a1 then (⟨false, none, some "Insufficient credits"⟩, db)
            else ((⟨true, some (c1 - a1), none⟩ : DeductResp), dcWrite db email a1 c1 d)
  let s2 := if c2 < a2 then (⟨false, none, some "Insufficient credits"⟩, s1.2)
            else ((⟨true, some (c2 - a2), none⟩ : DeductResp), dcWrite s1.2 email a2 c2 d)
  ((s1.1, s2.1), s2.2)

/- ### `payments-verify` and `stripe-webhook` edge functions
(src/supabase/functions/payments-verify/index.ts and
src/backend/supabase/functions/stripe-webhook/index.ts)

Both handlers carry the same `PLAN_CREDITS` table and run the same sequence of
round trips for a paid checkout session: a duplicate check on
`stripe_session_id`, then (when absent) read credits, upsert the increased
balance, insert a `purchase` transaction carrying the session id. -/

/-- The `PLAN_CREDITS` table both handlers declare. -/
def PLAN_CREDITS : List (String × Int) :=
  [("personal", 600), ("creator", 1800), ("studio", 5000), ("flex", 120)]

/-- `PLAN_CREDITS[plan]` as an optional lookup. -/
def planCredits (plan : String) : Option Int :=
  (PLAN_CREDITS.find? (fun r => r.1 == plan)).map (fun r => r.2)

/-- The fields of a Stripe checkout session the two handlers read.
`metadata_plan` is `session.metadata?.plan` (absent when the metadata carries
no plan). -/
structure StripeSession where
  id : String
  payment_status : String
  customer_email : String
  metadata_plan : Option String
deriving DecidableEq

/-- The response bodies `payments-verify` can produce (ignoring the catch-all
500 branch, which only fires on thrown storage errors). -/
inductive VerifyResp where
  | paymentNotCompleted
  | alreadyCredited (credits : Int) (plan : String)
  | added (added credits : Int) (plan : String)
deriving DecidableEq

/-- `session.metadata?.plan || 'personal'`. -/
def pvPlan (s : StripeSession) : String :=
  s.metadata_plan.getD "personal"

/-- `PLAN_CREDITS[plan] || 600`. -/
def pvCreditsToAdd (s : StripeSession) : Int :=
  (planCredits (pvPlan s)).getD 600

/-- The `purchase` transaction row both handlers append. -/
def purchaseEntry (s : StripeSession) : Txn :=
  { email := s.customer_email, amount := pvCreditsToAdd s, type := "purchase",
    stripe_session_id := some s.id, description := "Purchase: " ++ pvPlan s }

/-- The write phase of `payments-verify` after its duplicate check found
nothing: read current credits, upsert `current + creditsToAdd`, insert the
`purchase` row.  Returns the `newTotal` the handler reports. -/
def pvApply (db : EDB) (s : StripeSession) : Int × EDB :=
  let current := (lookupCredits db s.customer_email).getD 0
  let newTotal := current + pvCreditsToAdd s
  (newTotal, insertTxn (upsertCredits db s.customer_email newTotal) (purchaseEntry s))

/-- The `payments-verify` handler, sequential semantics. -/
def paymentsVerify (db : EDB) (s : StripeSession) : VerifyResp × EDB :=
  if s.payment_status ≠ "paid" then (.paymentNotCompleted, db)
  else if sessionCredited db s.id then
    (.alreadyCredited ((lookupCredits db s.customer_email).getD 0) (pvPlan s), db)
  else
    ((.added (pvCreditsToAdd s) (pvApply db s).1 (pvPlan s)), (pvApply db s).2)

/-- The write phase of the `stripe-webhook` `checkout.session.completed`
branch after its duplicate check found nothing; the body is the same
read / upsert / insert sequence as `payments-verify`. -/
def whApply (db : EDB) (s : StripeSession) : EDB :=
  let current := (lookupCredits db s.customer_email).getD 0
  let newTotal := current + pvCreditsToAdd s
  insertTxn (upsertCredits db s.customer_email newTotal) (purchaseEntry s)

/-- The `stripe-webhook` handler's effect on the store for a
`checkout.session.completed` event, sequential semantics. -/
def stripeWebhook (db : EDB) (s : StripeSession) : EDB :=
  if s.payment_status ≠ "paid" then db
  else if sessionCredited db s.id then db
  else whApply db s

/-- One interleaved execution of `payments-verify` (the browser returning from
the checkout redirect) and `stripe-webhook` (the asynchronous webhook
delivery) for the same paid session: both duplicate checks resolve against
the initial store, then the `payments-verify` write phase completes, then the
webhook write phase runs.  Every round trip of each handler happens in its
program order. -/
def verifyWebhookRace (db : EDB) (s : StripeSession) : VerifyResp × EDB :=
  if s.payment_status ≠ "paid" then (.paymentNotCompleted, db)
  else
    let credited1 := sessionCredited db s.id
    let credited2 := sessionCredited db s.id
    let s1 := if credited1 then
        ((VerifyResp.alreadyCredited ((lookupCredits db s.customer_email).getD 0) (pvPlan s)), db)
      else ((.added (pvCreditsToAdd s) (pvApply db s).1 (pvPlan s)), (pvApply db s).2)
    let db2 := if credited2 then s1.2 else whApply s1.2 s
    (s1.1, db2)

/- ### Account provisioning
(src/unnamed/part_013 `get-credits` and src/components/AuthContext.tsx
`fetchCredits`) -/

/-- The `free_grant` row the `get-credits` handler appends for a new user. -/
def grantEntry (email : String) : Txn :=
  { email := email, amount := 100, type := "free_grant", stripe_session_id := none,
    description := "Welcome: 100 free credits" }

/-- The provisioning write phase of the `get-credits` handler for a missing
row: `insert \x7b email, credits: 100 \x7d` into `user_credits`, then insert one
`free_grant` transaction — two separately awaited inserts, neither guarded by
a constraint in the repo. -/
def gcProvision (db : EDB) (email : String) : EDB :=
  insertTxn { db with user_credits := db.user_credits ++ [(email, 100)] }
    (grantEntry email)

/-- The `get-credits` handler: return the existing row, or insert a
100-credit row plus one `free_grant` transaction.  The response is the
reported credit count. -/
def getCredits (db : EDB) (email : String) : Int × EDB :=
  match lookupCredits db email with
  | some c => (c, db)
  | none => (100, gcProvision db email)

/-- One interleaved execution of two concurrent `get-credits` calls for the
same email: both row reads resolve against the initial store, then the first
call's write phase (row insert, grant insert) completes, then the second
call's.  Each call's branch uses the row its own read observed, exactly as in
the handler body. -/
def getCreditsRace (db : EDB) (email : String) : (Int × Int) × EDB :=
  let r1 := lookupCredits db email
  let r2 := lookupCredits db email
  let s1 := match r1 with
    | some c => (c, db)
    | none => (100, gcProvision db email)
  let s2 := match r2 with
    | some c => (c, s1.2)
    | none => (100, gcProvision s1.2 email)
  ((s1.1, s2.1), s2.2)

/-- The `fetchCredits` provisioning path of `components/AuthContext.tsx`:
for a missing row it inserts `\x7b email, credits: 100 \x7d` and reports 100,
without inserting any transaction row. -/
def fetchCredits (db : EDB) (email : String) : Int × EDB :=
  match lookupCredits db email with
  | some c => (c, db)
  | none => (100, { db with user_credits := db.user_credits ++ [(email, 100)] })

/- ### Grant-policy lookups
(src/backend/src/config/creditCosts.ts and the `TOOL_COSTS` table of
src/src/context/AuthContext.tsx) -/

/-- The `CREDIT_COSTS` table. -/
def CREDIT_COSTS : List (String × Int) :=
  [("chat", 1), ("chat_stream", 1),
   ("image_generate", 5), ("image_clone", 5), ("image_edit", 3), ("image_analyze", 2),
   ("video_from_image", 15), ("video_from_prompt", 15),
   ("audio_transcribe", 3), ("voice_generate", 5), ("voice_clone", 10),
   ("photo_animate", 10)]

/-- `getCreditCost(action) = CREDIT_COSTS[action] || 1` (every listed cost is
positive, so the fallback fires exactly on unknown identifiers). -/
def getCreditCost (action : String) : Int :=
  ((CREDIT_COSTS.find? (fun r => r.1 == action)).map (fun r => r.2)).getD 1

/-- The client `TOOL_COSTS` table. -/
def TOOL_COSTS : List (String × Int) :=
  [("IMAGE_GEN", 10), ("VIDEO_GEN", 45), ("ANIMATE", 45), ("VOICE_CHAT", 10), ("ANALYSIS", 10)]

/-- `TOOL_COSTS[toolKey] || 1`, the amount `deductCredit` in
`src/src/context/AuthContext.tsx` charges. -/
def toolCost (toolKey : String) : Int :=
  ((TOOL_COSTS.find? (fun r => r.1 == toolKey)).map (fun r => r.2)).getD 1

/- ### Express backend
(src/backend/src/services/stripeService.ts,
src/backend/src/controllers/userController.ts,
src/backend/src/config/stripe.ts)

This code path keys accounts by user id in a `profiles` table
(`credits_remaining`, `subscription_plan`, `subscription_status`).  Its
duplicate check reads a `transactions` table, while `savePayment` writes to a
`payment_history` table; neither `addCredits` nor `deductCredits` writes any
transaction row. -/

namespace Backend

/-- The `profiles` columns the credit code touches. -/
structure Profile where
  credits_remaining : Int
  subscription_plan : String
  subscription_status : String
deriving DecidableEq

/-- A row of the `transactions` table `verifyPayment` queries by
`stripe_invoice_id` (nothing in this code path inserts into it). -/
structure TxRecord where
  stripe_invoice_id : Option String
deriving DecidableEq

/-- A row of the `payment_history` table `savePayment` appends to. -/
structure PayRecord where
  user_id : String
  stripe_payment_intent_id : String
  stripe_invoice_id : Option String
  amount_cents : Int
  currency : String
  status : String
  description : String
deriving DecidableEq

/-- The backend's store. -/
structure BDB where
  profiles : List (String × Profile)
  transactions : List TxRecord
  payment_history : List PayRecord
deriving DecidableEq

def lookupProfile (db : BDB) (userId : String) : Option Profile :=
  lookupRow db.profiles userId

def updateProfile (db : BDB) (userId : String) (p : Profile) : BDB :=
  { db with profiles := updateRow db.profiles userId p }

/-- `planOrder[plan] || 0` from `StripeService.addCredits`. -/
def planOrder (plan : String) : Int :=
  ((([("free", 0), ("flex", 0), ("personal", 1), ("creator", 2), ("studio", 3)]
      : List (String × Int)).find? (fun r => r.1 == plan)).map (fun r => r.2)).getD 0

/-- `StripeService.addCredits`: stack credits on the profile and upgrade the
plan label only when the purchased plan ranks strictly higher.  No row is
written to `transactions` or `payment_history`. -/
def addCredits (db : BDB) (userId : String) (creditsToAdd : Int) (plan : String) :
    Bool × BDB :=
  match lookupProfile db userId with
  | none => (false, db)
  | some profile =>
    let newCredits := profile.credits_remaining + creditsToAdd
    let currentPlanLevel := planOrder profile.subscription_plan
    let newPlanLevel := planOrder plan
    let updated :=
      if newPlanLevel > currentPlanLevel then
        { profile with
          credits_remaining := newCredits
          subscription_plan := plan
          subscription_status := "active" }
      else
        { profile with credits_remaining := newCredits }
    (true, updateProfile db userId updated)

/-- `StripeService.deductCredits`: fetch the profile (missing → `remaining 0`),
reject when `credits_remaining < creditsToDeduct`, otherwise write the reduced
balance.  No transaction row is appended. -/
def deductCredits (db : BDB) (userId : String) (creditsToDeduct : Int) :
    (Bool × Int) × BDB :=
  match lookupProfile db userId with
  | none => ((false, 0), db)
  | some profile =>
    if profile.credits_remaining < creditsToDeduct then
      ((false, profile.credits_remaining), db)
    else
      let newCredits := profile.credits_remaining - creditsToDeduct
      ((true, newCredits),
       updateProfile db userId { profile with credits_remaining := newCredits })

/-- The `name` and `credits` of a `PLAN_CONFIG` entry (the fields the credit
path reads). -/
structure PlanDetails where
  name : String
  credits : Int
deriving DecidableEq

/-- `PLAN_CONFIG` from src/backend/src/config/stripe.ts. -/
def PLAN_CONFIG : List (String × PlanDetails) :=
  [("free", ⟨"Trial", 100⟩), ("personal", ⟨"Personal", 600⟩),
   ("creator", ⟨"Creator", 1800⟩), ("studio", ⟨"Studio", 5000⟩),
   ("flex", ⟨"Flex Credit", 100⟩)]

/-- `PLAN_CONFIG[planName]` as an optional lookup (no default). -/
def planConfigOf (plan : String) : Option PlanDetails :=
  (PLAN_CONFIG.find? (fun r => r.1 == plan)).map (fun r => r.2)

/-- The checkout-session fields `PaymentController.verifyPayment` reads. -/
structure Session where
  id : String
  payment_status : String
  payment_intent : Option String
  amount_total : Option Int
  currency : Option String
  metadata_supabase_user_id : Option String
  metadata_plan_name : Option String
deriving DecidableEq

/-- The response bodies `verifyPayment` can produce (ignoring the catch-all
500 branch). -/
inductive VerifyPaymentResp where
  | paymentNotCompleted
  | ownershipMismatch
  | unknownPlan
  | alreadyCredited (credits : Int) (plan : String)
  | credited (credits : Int) (plan : String) (added : Int)
  | addFailed
deriving DecidableEq

/-- The duplicate check: `select id from transactions where
stripe_invoice_id = sessionId maybeSingle()`. -/
def transactionsHasInvoice (db : BDB) (sid : String) : Bool :=
  db.transactions.any (fun r => r.stripe_invoice_id == some sid)

/-- `SupabaseService.savePayment`: append one `payment_history` row. -/
def savePayment (db : BDB) (userId : String) (s : Session) (cfg : PlanDetails) : BDB :=
  { db with payment_history := db.payment_history ++
      [{ user_id := userId,
         stripe_payment_intent_id := s.payment_intent.getD s.id,
         stripe_invoice_id := some s.id,
         amount_cents := s.amount_total.getD 0,
         currency := s.currency.getD "usd",
         status := "succeeded",
         description := cfg.name ++ " - " ++ toString cfg.credits ++ " credits" }] }

/-- `PaymentController.verifyPayment` for a retrieved session: paid check,
ownership check against the caller, plan lookup (no default), duplicate check
on `transactions`, then `addCredits` followed by `savePayment`. -/
def verifyPayment (db : BDB) (callerId : String) (s : Session) :
    VerifyPaymentResp × BDB :=
  if s.payment_status ≠ "paid" then (.paymentNotCompleted, db)
  else if s.metadata_supabase_user_id ≠ some callerId then (.ownershipMismatch, db)
  else
    match s.metadata_plan_name.bind planConfigOf with
    | none => (.unknownPlan, db)
    | some cfg =>
      if transactionsHasInvoice db s.id then
        let p := lookupProfile db callerId
        (.alreadyCredited ((p.map (fun q => q.credits_remaining)).getD 0)
          ((p.map (fun q => q.subscription_plan)).getD "free"), db)
      else
        let r := addCredits db callerId cfg.credits (s.metadata_plan_name.getD "")
        if r.1 = false then (.addFailed, r.2)
        else
          let db2 := savePayment r.2 callerId s cfg
          let p := lookupProfile db2 callerId
          (.credited ((p.map (fun q => q.credits_remaining)).getD 0)
            ((p.map (fun q => q.subscription_plan)).getD "free") cfg.credits, db2)

end Backend

/- ### Concrete stores and sessions used to evaluate the handlers -/

/-- A store holding one account `alice` with 10 credits and no transactions. -/
def aliceTen : EDB := ⟨[("alice", 10)], []⟩

/-- A store holding `alice` with 4 credits (the spec's post-usage balance). -/
def aliceFour : EDB := ⟨[("alice", 4)], []⟩

/-- A store holding `alice` with 100 credits (the signup bonus). -/
def aliceHundred : EDB := ⟨[("alice", 100)], []⟩

/-- A store holding `alice` with 50 credits. -/
def aliceFifty : EDB := ⟨[("alice", 50)], []⟩

/-- A store holding `alice` with 0 credits. -/
def aliceZero : EDB := ⟨[("alice", 0)], []⟩

/-- The empty store: no accounts, no transactions. -/
def emptyEDB : EDB := ⟨[], []⟩

/-- A paid checkout session for the `creator` plan (1800 credits). -/
def creatorSession : StripeSession := ⟨"sess_abc", "paid", "alice", some "creator"⟩

/-- A paid checkout session whose metadata names a plan absent from
`PLAN_CREDITS`. -/
def enterpriseSession : StripeSession := ⟨"sess_x", "paid", "alice", some "enterprise"⟩

/-- A backend store holding one profile `u1` with 100 credits on the free
plan, and empty `transactions` / `payment_history` tables. -/
def userOneDB : Backend.BDB := ⟨[("u1", ⟨100, "free", "inactive"⟩)], [], []⟩

/-- A paid backend session whose metadata records `mallory` as the purchaser. -/
def mallorySession : Backend.Session :=
  ⟨"cs_1", "paid", some "pi_1", some 2200, some "usd", some "mallory", some "personal"⟩

/- ### Lemmas about the keyed-table primitives -/

theorem lookupRow_upsertRow_self {α : Type} (l : List (String × α)) (em : String) (n : α) :
    lookupRow (upsertRow l em n) em = some n := by
  induction l with
  | nil => simp [upsertRow, lookupRow]
  | cons r rs ih =>
    by_cases h : r.1 == em
    · simp [upsertRow, h, lookupRow]
    · simp [upsertRow, h, lookupRow, ih]

theorem lookupRow_upsertRow_ne {α : Type} (l : List (String × α)) (em e : String) (n : α)
    (h : e ≠ em) : lookupRow (upsertRow l em n) e = lookupRow l e := by
  induction l with
  | nil =>
    simp [upsertRow, lookupRow]
    intro he
    exact absurd he.symm h
  | cons r rs ih =>
    by_cases hr : r.1 == em
    · have hrm : r.1 = em := by simpa using hr
      have hne : (em == e) = false := by
        simp [Ne.symm h]
      have hne2 : (r.1 == e) = false := by
        simp [hrm, Ne.symm h]
      simp [upsertRow, hr, lookupRow, hne, hne2]
    · simp [upsertRow, hr, lookupRow, ih]

theorem lookupRow_append_of_none {α : Type} (l l2 : List (String × α)) (e : String)
    (h : lookupRow l e = none) : lookupRow (l ++ l2) e = lookupRow l2 e := by
  induction l with
  | nil => simp
  | cons r rs ih =>
    by_cases hr : r.1 == e
    · simp [lookupRow, hr] at h
    · simp [lookupRow, hr] at h ⊢
      exact ih h

theorem lookupRow_updateRow_self {α : Type} (l : List (String × α)) (uid : String)
    (p q : α) (h : lookupRow l uid = some p) :
    lookupRow (updateRow l uid q) uid = some q := by
  induction l with
  | nil => simp [lookupRow] at h
  | cons r rs ih =>
    by_cases hr : r.1 == uid
    · simp [updateRow, hr, lookupRow]
    · simp [lookupRow, hr] at h
      simp [updateRow, hr, lookupRow, ih h]

theorem lookupCredits_insertTxn (db : EDB) (t : Txn) (e : String) :
    lookupCredits (insertTxn db t) e = lookupCredits db e := rfl

theorem lookupCredits_upsertCredits_self (db : EDB) (em : String) (n : Int) :
    lookupCredits (upsertCredits db em n) em = some n :=
  lookupRow_upsertRow_self db.user_credits em n

theorem lookupCredits_upsertCredits_ne (db : EDB) (em e : String) (n : Int) (h : e ≠ em) :
    lookupCredits (upsertCredits db em n) e = lookupCredits db e :=
  lookupRow_upsertRow_ne db.user_credits em e n h

theorem getCredits_of_some (db : EDB) (email : String) (c : Int)
    (h : lookupCredits db email = some c) : getCredits db email = (c, db) := by
  simp [getCredits, h]

/- ### Claim theorems -/

/-- C1: the check-then-insert reconciliation of `payments-verify` and
`stripe-webhook` double-credits under the claim's own concurrent scenario.
Starting from `alice` at 4 credits with an empty ledger, the interleaving in
which both handlers run their duplicate check before either writes (browser
redirect and webhook both firing for the paid `creator` session `sess_abc`)
leaves two ledger rows carrying the idempotency key and a balance of
4 + 1800 + 1800 = 3604 — two balance increases, two entries, and no
`alreadyCredited` report, where the claim demands exactly one of each. -/
theorem c1_concurrent_reconcile_double_credits :
    sessionCredited aliceFour creatorSession.id = false ∧
    (verifyWebhookRace aliceFour creatorSession).1
      = VerifyResp.added 1800 1804 "creator" ∧
    lookupCredits (verifyWebhookRace aliceFour creatorSession).2 "alice" = some 3604 ∧
    countSessionTxns (verifyWebhookRace aliceFour creatorSession).2 "sess_abc" = 2 := by
  decide

/-- C2: the read-then-write `deduct-credits` handler loses an update under
two concurrent debits.  With balance 10 and two concurrent debits of 10
whose reads both resolve before either write, both calls report success
(total debited 20 > 10), two `usage` rows of −10 are appended, and the final
balance is 0 rather than the claimed B − (sum of successful debits) = −10;
the claim requires the successful subset to total at most B = 10. -/
theorem c2_concurrent_debits_double_spend :
    dcRead aliceTen "alice" = 10 ∧
    (deductRace aliceTen "alice" 10 10 "img").1.1.success = true ∧
    (deductRace aliceTen "alice" 10 10 "img").1.2.success = true ∧
    lookupCredits (deductRace aliceTen "alice" 10 10 "img").2 "alice" = some 0 ∧
    (deductRace aliceTen "alice" 10 10 "img").2.credit_transactions
      = [usageEntry "alice" 10 "img", usageEntry "alice" 10 "img"] ∧
    ¬ ((10 : Int) + 10 ≤ 10) := by
  decide

/-- C3: a debit is two separate storage writes, not one atomic operation.
`deduct-credits` on `alice` at 100 with amount 5 is definitionally the
`user_credits` upsert followed by the `credit_transactions` insert, and the
store between those two round trips — the store left behind if the second
write never runs — holds the decreased balance 95 with no `usage` entry at
all, an observable partial state the claim rules out. -/
theorem c3_observable_partial_state :
    (deductCredits aliceHundred "alice" 5 "").2
      = dcInsert (dcUpsert aliceHundred "alice" 95) "alice" 5 "" ∧
    lookupCredits (dcUpsert aliceHundred "alice" 95) "alice" = some 95 ∧
    (dcUpsert aliceHundred "alice" 95).credit_transactions = [] := by
  decide

/-- C4: `StripeService.addCredits` changes the balance without appending any
ledger record, breaking the balance = signupBonus + Σdelta invariant.  On a
profile holding the 100-credit signup bonus with empty `transactions` and
`payment_history` tables (so Σdelta = 0 and the invariant holds), adding the
600-credit `personal` purchase leaves balance 700 and still no record in
either table, and 700 ≠ 100 + 0. -/
theorem c4_addCredits_preserves_no_ledger :
    (Backend.addCredits userOneDB "u1" 600 "personal").1 = true ∧
    Backend.lookupProfile (Backend.addCredits userOneDB "u1" 600 "personal").2 "u1"
      = some ⟨700, "personal", "active"⟩ ∧
    (Backend.addCredits userOneDB "u1" 600 "personal").2.transactions = [] ∧
    (Backend.addCredits userOneDB "u1" 600 "personal").2.payment_history = [] ∧
    (700 : Int) ≠ 100 + 0 := by
  decide

/-- C5 counterexample: `StripeService.deductCredits` refutes the claim's
"a usage ledger entry with delta = −a is appended".  Debiting 5 from the
100-credit profile succeeds with remaining 95, yet both the `transactions`
and `payment_history` tables are as empty after the call as before it: no
ledger entry of any kind is appended. -/
theorem c5_backend_debit_appends_no_entry :
    (Backend.deductCredits userOneDB "u1" 5).1 = (true, 95) ∧
    (Backend.deductCredits userOneDB "u1" 5).2.transactions = [] ∧
    (Backend.deductCredits userOneDB "u1" 5).2.payment_history = [] := by
  decide

/-- C5 amended: the `deduct-credits` edge function satisfies the debit
postcondition — insufficient balance leaves the store untouched, returns
`success = false` and no balance (only an error string); sufficient balance
returns `success = true` with the post-debit balance b − a, writes exactly
b − a, and appends one `usage` entry of −a — while the backend
`StripeService.deductCredits` returns the post-debit balance on success and
the unchanged balance on failure but appends no ledger entry. -/
theorem c5_debit_postcondition (db : EDB) (bdb : Backend.BDB)
    (email d userId : String) (a : Int) (p : Backend.Profile) :
    (dcRead db email < a →
      deductCredits db email a d = (⟨false, none, some "Insufficient credits"⟩, db)) ∧
    (¬ dcRead db email < a →
      (deductCredits db email a d).1 = ⟨true, some (dcRead db email - a), none⟩ ∧
      lookupCredits (deductCredits db email a d).2 email = some (dcRead db email - a) ∧
      (deductCredits db email a d).2.credit_transactions
        = db.credit_transactions ++ [usageEntry email a d]) ∧
    (Backend.lookupProfile bdb userId = some p →
      (p.credits_remaining < a →
        Backend.deductCredits bdb userId a = ((false, p.credits_remaining), bdb)) ∧
      (¬ p.credits_remaining < a →
        (Backend.deductCredits bdb userId a).1 = (true, p.credits_remaining - a) ∧
        (Backend.deductCredits bdb userId a).2.transactions = bdb.transactions ∧
        (Backend.deductCredits bdb userId a).2.payment_history = bdb.payment_history)) := by
  refine ⟨fun h => by simp [deductCredits, h], fun h => ?_, fun hp => ⟨fun h => ?_, fun h => ?_⟩⟩
  · refine ⟨by simp [deductCredits, h], ?_, ?_⟩
    · show lookupCredits (deductCredits db email a d).2 email = _
      simp only [deductCredits, if_neg h]
      show lookupCredits (dcInsert (dcUpsert db email _) email a d) email = _
      rw [show ∀ (x : EDB) (e : String) (m : Int) (s : String),
            lookupCredits (dcInsert x e m s) e = lookupCredits x e from fun _ _ _ _ => rfl]
      exact lookupCredits_upsertCredits_self db email _
    · simp only [deductCredits, if_neg h]
      rfl
  · simp [Backend.deductCredits, hp, h]
  · refine ⟨?_, ?_, ?_⟩
    · simp [Backend.deductCredits, hp, h]
    · simp [Backend.deductCredits, hp, h, Backend.updateProfile]
    · simp [Backend.deductCredits, hp, h, Backend.updateProfile]

/-- C5 witness: the postcondition theorem evaluated at `alice` holding 100
against a 101-credit debit (the insufficient branch). -/
theorem c5_debit_postcondition_witness :
    dcRead aliceHundred "alice" < 101 ∧
    deductCredits aliceHundred "alice" 101 ""
      = (⟨false, none, some "Insufficient credits"⟩, aliceHundred) :=
  ⟨by decide,
   (c5_debit_postcondition aliceHundred userOneDB "alice" "" "u1" 101
      ⟨100, "free", "inactive"⟩).1 (by decide)⟩

/-- C6: unknown identifiers are silently defaulted, not rejected.
`getCreditCost` prices the unknown tool `nonexistent_tool` at 1, the client
`TOOL_COSTS` lookup does the same, and `payments-verify` maps the unknown
plan `enterprise` to the 600-credit `personal` default and mutates the
balance of the zero-credit account to 600 — where the claim demands
`UnknownTool` / `UnknownPlan` failures with no balance mutation. -/
theorem c6_unknown_identifier_fallback :
    getCreditCost "nonexistent_tool" = 1 ∧
    toolCost "NONEXISTENT" = 1 ∧
    pvCreditsToAdd enterpriseSession = 600 ∧
    (paymentsVerify aliceZero enterpriseSession).1
      = VerifyResp.added 600 600 "enterprise" ∧
    lookupCredits (paymentsVerify aliceZero enterpriseSession).2 "alice" = some 600 := by
  decide

/-- C7 counterexample: both halves of the claim fail at concrete inputs.
The `fetchCredits` provisioning path of `components/AuthContext.tsx` refutes
"appends exactly one signup_grant ledger entry": provisioning the fresh
principal `bob` creates the 100-credit account but leaves the transaction
table empty — zero grant entries, not one.  And the `get-credits` handler
refutes "exactly one account ... even when called ... concurrently": the
interleaving in which both row reads of two concurrent calls for the fresh
`bob` precede either insert provisions twice, leaving two account rows and
two `free_grant` entries. -/
theorem c7_provisioning_not_exactly_once :
    (fetchCredits emptyEDB "bob").1 = 100 ∧
    lookupCredits (fetchCredits emptyEDB "bob").2 "bob" = some 100 ∧
    (fetchCredits emptyEDB "bob").2.credit_transactions = [] ∧
    (getCreditsRace emptyEDB "bob").1 = (100, 100) ∧
    (getCreditsRace emptyEDB "bob").2.user_credits = [("bob", 100), ("bob", 100)] ∧
    (getCreditsRace emptyEDB "bob").2.credit_transactions
      = [grantEntry "bob", grantEntry "bob"] := by
  decide

/-- C7 amended: sequentially, the `get-credits` handler is idempotent — an
existing account is returned unchanged, and a fresh principal gets one
100-credit account plus exactly one `free_grant` entry, after which a repeat
call returns the account unchanged.  The `fetchCredits` provisioning variant
creates the 100-credit account without appending any grant entry.  And two
concurrent `get-credits` calls for the same unseen principal whose row reads
both precede either insert each provision, appending two account rows and
two `free_grant` entries. -/
theorem c7_provisioning (db : EDB) (email : String) :
    (∀ c : Int, lookupCredits db email = some c → getCredits db email = (c, db)) ∧
    (lookupCredits db email = none →
      (getCredits db email).1 = 100 ∧
      lookupCredits (getCredits db email).2 email = some 100 ∧
      (getCredits db email).2.credit_transactions
        = db.credit_transactions ++ [grantEntry email] ∧
      getCredits (getCredits db email).2 email = (100, (getCredits db email).2)) ∧
    (lookupCredits db email = none →
      (fetchCredits db email).1 = 100 ∧
      lookupCredits (fetchCredits db email).2 email = some 100 ∧
      (fetchCredits db email).2.credit_transactions = db.credit_transactions) ∧
    (lookupCredits db email = none →
      (getCreditsRace db email).1 = (100, 100) ∧
      (getCreditsRace db email).2.user_credits
        = db.user_credits ++ [(email, 100), (email, 100)] ∧
      (getCreditsRace db email).2.credit_transactions
        = db.credit_transactions ++ [grantEntry email, grantEntry email]) := by
  have hnew : lookupCredits db email = none →
      lookupRow (db.user_credits ++ [(email, 100)]) email = some 100 := by
    intro h
    rw [lookupRow_append_of_none db.user_credits _ email h]
    simp [lookupRow]
  refine ⟨fun c hc => getCredits_of_some db email c hc, fun h => ?_, fun h => ?_,
    fun h => ?_⟩
  · have hlook : lookupCredits (getCredits db email).2 email = some 100 := by
      simp only [getCredits, h]
      exact hnew h
    exact ⟨by simp [getCredits, h, gcProvision, insertTxn], hlook,
      by simp [getCredits, h, gcProvision, insertTxn],
      getCredits_of_some _ _ _ hlook⟩
  · have h' : lookupRow db.user_credits email = none := h
    refine ⟨by simp [fetchCredits, lookupCredits, h'], ?_,
      by simp [fetchCredits, lookupCredits, h']⟩
    show lookupCredits (fetchCredits db email).2 email = some 100
    simp only [fetchCredits, lookupCredits, h']
    exact hnew h
  · simp [getCreditsRace, h, gcProvision, insertTxn, List.append_assoc]

/-- C7 witness: the amended provisioning behaviour evaluated at the fresh
principal `bob` in the empty store, for both the sequential `get-credits`
clauses and the concurrent-provisioning clause. -/
theorem c7_provisioning_witness :
    lookupCredits emptyEDB "bob" = none ∧
    (getCredits emptyEDB "bob").1 = 100 ∧
    (getCredits emptyEDB "bob").2.credit_transactions = [grantEntry "bob"] ∧
    getCredits (getCredits emptyEDB "bob").2 "bob" = (100, (getCredits emptyEDB "bob").2) ∧
    (getCreditsRace emptyEDB "bob").2.credit_transactions
      = [grantEntry "bob", grantEntry "bob"] := by
  have h := (c7_provisioning emptyEDB "bob").2.1 (by decide)
  have hr := (c7_provisioning emptyEDB "bob").2.2.2 (by decide)
  exact ⟨by decide, h.1, by simpa [emptyEDB] using h.2.2.1, h.2.2.2,
    by simpa [emptyEDB] using hr.2.2⟩

/-- C8: reconciliation validates ownership where an expected principal is
supplied, and credits only the principal recorded on the payment.  The
backend `verifyPayment` rejects a paid session whose metadata records a
different purchaser, leaving the store untouched; and the `payments-verify`
edge function (whose caller supplies no principal) changes no balance other
than the session's own `customer_email`. -/
theorem c8_ownership_validation (db : Backend.BDB) (edb : EDB)
    (callerId : String) (s : Backend.Session) (t : StripeSession) (e : String) :
    (s.payment_status = "paid" → s.metadata_supabase_user_id ≠ some callerId →
      Backend.verifyPayment db callerId s = (Backend.VerifyPaymentResp.ownershipMismatch, db)) ∧
    (e ≠ t.customer_email →
      lookupCredits (paymentsVerify edb t).2 e = lookupCredits edb e) := by
  constructor
  · intro h1 h2
    simp [Backend.verifyPayment, h1, h2]
  · intro he
    by_cases h1 : t.payment_status = "paid"
    · by_cases h2 : sessionCredited edb t.id
      · simp [paymentsVerify, h1, h2]
      · simp only [paymentsVerify, h1, h2, ne_eq, not_true_eq_false, if_false,
          Bool.false_eq_true, if_neg, not_false_eq_true]
        rw [show (pvApply edb t).2
              = insertTxn (upsertCredits edb t.customer_email
                  ((lookupCredits edb t.customer_email).getD 0 + pvCreditsToAdd t))
                  (purchaseEntry t) from rfl]
        rw [lookupCredits_insertTxn]
        exact lookupCredits_upsertCredits_ne _ _ _ _ he
    · simp [paymentsVerify, h1]

/-- C8 witness: `verifyPayment` called by `u1` on mallory's paid session is
rejected with the store unchanged, and `payments-verify` for alice's session
leaves bob's balance untouched. -/
theorem c8_ownership_validation_witness :
    Backend.verifyPayment userOneDB "u1" mallorySession
      = (Backend.VerifyPaymentResp.ownershipMismatch, userOneDB) ∧
    lookupCredits (paymentsVerify aliceFour creatorSession).2 "bob"
      = lookupCredits aliceFour "bob" :=
  ⟨(c8_ownership_validation userOneDB aliceFour "u1" mallorySession creatorSession "bob").1
      rfl (by decide),
   (c8_ownership_validation userOneDB aliceFour "u1" mallorySession creatorSession "bob").2
      (by decide)⟩

/-- C9: `StripeService.addCredits` stacks the purchased credits and never
downgrades the stored plan tier: the updated profile's tier ranks at least
the old one in the code's order (free = flex 0 < personal < creator <
studio), and is either the old tier or the purchased plan. -/
theorem c9_plan_tier_monotone (db : Backend.BDB) (userId plan : String)
    (creditsToAdd : Int) (p : Backend.Profile)
    (hp : Backend.lookupProfile db userId = some p) :
    (Backend.addCredits db userId creditsToAdd plan).1 = true ∧
    ∃ q : Backend.Profile,
      Backend.lookupProfile (Backend.addCredits db userId creditsToAdd plan).2 userId
        = some q ∧
      q.credits_remaining = p.credits_remaining + creditsToAdd ∧
      Backend.planOrder p.subscription_plan ≤ Backend.planOrder q.subscription_plan ∧
      (q.subscription_plan = p.subscription_plan ∨ q.subscription_plan = plan) := by
  have key : Backend.addCredits db userId creditsToAdd plan
      = (true, Backend.updateProfile db userId
          (if Backend.planOrder plan > Backend.planOrder p.subscription_plan then
            { p with credits_remaining := p.credits_remaining + creditsToAdd, subscription_plan := plan, subscription_status := "active" }
          else
            { p with credits_remaining := p.credits_remaining + creditsToAdd })) := by
    simp only [Backend.addCredits, hp]
  refine ⟨by rw [key], ?_⟩
  by_cases h : Backend.planOrder plan > Backend.planOrder p.subscription_plan
  · rw [key, if_pos h]
    exact ⟨_, lookupRow_updateRow_self db.profiles userId p _ hp, rfl, le_of_lt h, Or.inr rfl⟩
  · rw [key, if_neg h]
    exact ⟨_, lookupRow_updateRow_self db.profiles userId p _ hp, rfl, le_refl _, Or.inl rfl⟩

/-- C9 witness: buying `personal` on a free 100-credit profile yields 700
credits on a tier at least as high. -/
theorem c9_plan_tier_monotone_witness :
    Backend.lookupProfile userOneDB "u1" = some ⟨100, "free", "inactive"⟩ ∧
    ((Backend.addCredits userOneDB "u1" 600 "personal").1 = true ∧
     ∃ q : Backend.Profile,
       Backend.lookupProfile (Backend.addCredits userOneDB "u1" 600 "personal").2 "u1"
         = some q ∧
       q.credits_remaining = (100 : Int) + 600 ∧
       Backend.planOrder "free" ≤ Backend.planOrder q.subscription_plan ∧
       (q.subscription_plan = "free" ∨ q.subscription_plan = "personal")) :=
  ⟨by decide,
   c9_plan_tier_monotone userOneDB "u1" "personal" 600 ⟨100, "free", "inactive"⟩ (by decide)⟩

/-- C10: `deduct-credits` never validates that the amount is positive.  For
any non-positive amount a against a non-negative observed balance c, the
guard `current < amount` fails, the call reports success and writes c − a;
a strictly negative amount strictly increases the balance. -/
theorem c10_nonpositive_amount_credits (db : EDB) (email d : String) (a : Int)
    (ha : a ≤ 0) (hc : 0 ≤ dcRead db email) :
    (deductCredits db email a d).1.success = true ∧
    (deductCredits db email a d).1.credits = some (dcRead db email - a) ∧
    lookupCredits (deductCredits db email a d).2 email = some (dcRead db email - a) ∧
    (a < 0 → dcRead db email < dcRead db email - a) := by
  have h : ¬ dcRead db email < a := not_lt.mpr (le_trans ha hc)
  refine ⟨by simp [deductCredits, h], by simp [deductCredits, h], ?_, fun h0 => by omega⟩
  simp only [deductCredits, if_neg h]
  show lookupCredits (dcInsert (dcUpsert db email _) email a d) email = _
  rw [show ∀ (x : EDB) (e : String) (m : Int) (s : String),
        lookupCredits (dcInsert x e m s) e = lookupCredits x e from fun _ _ _ _ => rfl]
  exact lookupCredits_upsertCredits_self db email _

/-- C10 witness: a −10 "debit" against `alice` holding 50 succeeds and raises
her balance to 60. -/
theorem c10_nonpositive_amount_credits_witness :
    (-10 : Int) ≤ 0 ∧ 0 ≤ dcRead aliceFifty "alice" ∧
    lookupCredits (deductCredits aliceFifty "alice" (-10) "").2 "alice" = some 60 :=
  ⟨by decide, by decide,
   (c10_nonpositive_amount_credits aliceFifty "alice" "" (-10) (by decide) (by decide)).2.2.1⟩

end IntellMade


